import Mathlib

/-!
Verification development for the madNES emulator front end (src/src/nes.c,
which also contains the debug UI header ui_nes.h).  The emulator core
(nes.h / r2c02.h: machine stepping, cartridge insertion, snapshots, the
picture generator) is not part of the repository sources; where a claim
depends on it, the missing functions are modelled from the specification
(doc comments starting with "Modelled from the spec:").  Everything else is
translated directly from the C sources.
-/

/-- Cartridge header fields, as used by `_ui_nes_draw_cartridge`
(ui_nes.h): `mapper_low`, `mapper_hi`, `prg_page_count`, `tile_page_count`,
`sram_page_count`, `mirror_mode`, `sram_avail`, `trainer`,
`vram_expansion`. -/
structure cart_header_t where
  mapper_low : Nat
  mapper_hi : Nat
  prg_page_count : Nat
  tile_page_count : Nat
  sram_page_count : Nat
  mirror_mode : Bool
  sram_avail : Bool
  trainer : Bool
  vram_expansion : Bool

/-- Modelled from the spec: the Cartridge entity (nes.h, not under src) —
parsed header, raw program and graphics banks, and the mutable
mapper-specific bank-select registers and RAM contents. -/
structure cart_t where
  header : cart_header_t
  prg : List Nat
  chr : List Nat
  bank_select : Nat → Nat
  ram : Nat → Nat

/-- Picture generator state.  Register bytes, OAM, nametable/pattern/palette
memory and the `scanline`/`cycle` position are the fields read by the debug
UI (ui_nes.h); the `vblank` flag and the `nmi_count` assertion counter model
the vertical-blank status bit and the NMI edge delivery described in the
spec (r2c02.h is not under src). -/
structure r2c02_t where
  ppu_control : Nat
  ppu_mask : Nat
  ppu_status : Nat
  oam : Nat → Nat
  vram : Nat → Nat
  pattern : Nat → Nat
  palette : Nat → Nat
  scanline : Nat
  cycle : Nat
  vblank : Bool
  nmi_count : Nat

/-- Modelled from the spec: the Machine root aggregate (nes_t in nes.h, not
under src) — picture generator state, the optional cartridge, the pad
bitmask, and the processor / picture-generator cycle counters. -/
structure nes_t where
  cpu_ticks : Nat
  ppu_ticks : Nat
  ppu : r2c02_t
  cart : Option cart_t
  pad : Nat

/-- Modelled from the spec: `nes_ppu_read` (nes.h / r2c02.h, not under src).
The picture generator exposes its own address space: pattern data below
0x2000, nametable RAM from 0x2000 up to the palette region, palette RAM
from 0x3F00; the 14-bit address wraps at 0x4000. -/
def nes_ppu_read (p : r2c02_t) (addr : Nat) : Nat :=
  let a := addr % 0x4000
  if a < 0x2000 then p.pattern a
  else if a < 0x3F00 then p.vram a
  else p.palette a

/-- Modelled from the spec: the NMI-enable bit of the control register
("control: NMI enable, ..."), bit 7 on the 2C02. -/
def r2c02_nmi_enable (ctrl : Nat) : Bool := (ctrl >>> 7) &&& 1 = 1

/-- Modelled from the spec: the sprite pattern-table select bit of the
control register ("control: ... sprite/background pattern-table select"),
bit 3 on the 2C02. -/
def r2c02_control_sprite_table (ctrl : Nat) : Nat := (ctrl >>> 3) &&& 1

/-- Modelled from the spec: one cycle of the picture generator's
341-cycle x 262-scanline state machine (r2c02.h, not under src).  `cycle`
resets to 0 when it would exceed 340; the vertical-blank status flag is set
at scanline 241 / cycle 1, with one NMI assertion counted when the
NMI-enable control bit is set at that moment, and cleared at the pre-render
scanline 261 / cycle 1. -/
def ppu_tick (p : r2c02_t) : r2c02_t :=
  let wrap := p.cycle + 1 > 340
  let cycle' := if wrap then 0 else p.cycle + 1
  let scanline' := if wrap then (if p.scanline + 1 > 261 then 0 else p.scanline + 1) else p.scanline
  if scanline' = 241 ∧ cycle' = 1 then
    { p with scanline := scanline', cycle := cycle', vblank := true,
             nmi_count := p.nmi_count + (if r2c02_nmi_enable p.ppu_control then 1 else 0) }
  else if scanline' = 261 ∧ cycle' = 1 then
    { p with scanline := scanline', cycle := cycle', vblank := false }
  else { p with scanline := scanline', cycle := cycle' }

/-- Modelled from the spec: the picture generator state at the start of a
frame — scanline 0, cycle 0, with the vertical-blank flag cleared by the
preceding pre-render scanline and no NMI assertion counted yet. -/
def ppu_frame_start (p : r2c02_t) : r2c02_t :=
  { p with scanline := 0, cycle := 0, vblank := false, nmi_count := 0 }

/-- Modelled from the spec: one processor cycle of the orchestrator's
stepping loop (nes.h, not under src) — the picture generator is clocked
exactly three times per processor cycle. -/
def nes_tick (m : nes_t) : nes_t :=
  { m with cpu_ticks := m.cpu_ticks + 1,
           ppu_ticks := m.ppu_ticks + 3,
           ppu := ppu_tick (ppu_tick (ppu_tick m.ppu)) }

/-- Modelled from the spec: the fixed cycles-per-second constant used to
convert executed processor cycles into emulated time (NTSC 6502 clock). -/
def NES_CPU_FREQUENCY : Nat := 1789773

/-- Modelled from the spec: the stepping loop of `nes_exec` (nes.h, not
under src).  `bound` is the requested time budget pre-multiplied into cycle
units (`target_microseconds * NES_CPU_FREQUENCY`); after `ticks` processor
cycles the accumulated emulated time reaches the budget exactly when
`ticks * 1000000 ≥ bound`.  The loop keeps ticking until the budget is met;
the `fuel` argument is a structural-recursion bound, always supplied large
enough that the loop never stops early. -/
def nes_exec_loop : Nat → nes_t → Nat → Nat → nes_t × Nat
  | 0, m, _, ticks => (m, ticks)
  | fuel + 1, m, bound, ticks =>
    if ticks * 1000000 < bound then nes_exec_loop fuel (nes_tick m) bound (ticks + 1)
    else (m, ticks)

/-- Modelled from the spec: `nes_exec(target_microseconds) -> ticks`
(nes.h, not under src) — repeatedly advances the machine one processor
cycle (and the picture generator three cycles), accumulating emulated time
from `NES_CPU_FREQUENCY`, until the accumulated time meets or exceeds the
requested budget; returns the machine and the number of processor cycles
executed. -/
def nes_exec (m : nes_t) (micro_seconds : Nat) : nes_t × Nat :=
  nes_exec_loop (micro_seconds * NES_CPU_FREQUENCY) m (micro_seconds * NES_CPU_FREQUENCY) 0

/-- Modelled from the spec: the running build's snapshot-layout version tag
(a build-specific tag, not a semantic version). -/
def NES_SNAPSHOT_VERSION : Nat := 0x00010001

/-- Modelled from the spec: `nes_save_snapshot` (nes.h, not under src) —
deep-copies the whole Machine into caller-supplied storage and returns the
current snapshot-layout version tag. -/
def nes_save_snapshot (m : nes_t) : Nat × nes_t := (NES_SNAPSHOT_VERSION, m)

/-- Modelled from the spec: `nes_load_snapshot` (nes.h, not under src) —
succeeds only if `version` equals the running build's snapshot-layout
version, replacing the Machine with the snapshot copy; on mismatch it fails
and leaves the live Machine completely unmodified. -/
def nes_load_snapshot (m : nes_t) (version : Nat) (src : nes_t) : Bool × nes_t :=
  if version = NES_SNAPSHOT_VERSION then (true, src) else (false, m)

/-- Modelled from the spec: the fixed 4-byte cartridge-image magic
("NES" followed by 0x1A, the iNES container magic). -/
def NES_MAGIC : List Nat := [0x4E, 0x45, 0x53, 0x1A]

/-- Modelled from the spec: the mapper id of a cartridge image — the low
nibble from the high 4 bits of header byte 6 combined with the high nibble
from the high 4 bits of header byte 7. -/
def ines_mapper_id (data : List Nat) : Nat :=
  ((data.getD 6 0 % 256) >>> 4) ||| (((data.getD 7 0 % 256) >>> 4) <<< 4)

/-- Modelled from the spec: parsing the 16-byte cartridge header — program
bank count (byte 4), graphics bank count (byte 5), flags byte 6 (mapper-id
low nibble in the high bits; mirroring, battery-RAM, trainer and
four-screen bits), flags byte 7 (mapper-id high nibble in the high
bits). -/
def parse_cart_header (data : List Nat) : cart_header_t :=
  { mapper_low := (data.getD 6 0 % 256) >>> 4
    mapper_hi := (data.getD 7 0 % 256) >>> 4
    prg_page_count := data.getD 4 0 % 256
    tile_page_count := data.getD 5 0 % 256
    sram_page_count := data.getD 8 0 % 256
    mirror_mode := (data.getD 6 0 % 256) &&& 1 = 1
    sram_avail := ((data.getD 6 0 % 256) >>> 1) &&& 1 = 1
    trainer := ((data.getD 6 0 % 256) >>> 2) &&& 1 = 1
    vram_expansion := ((data.getD 6 0 % 256) >>> 3) &&& 1 = 1 }

/-- Modelled from the spec: `nes_insert_cart(bytes) -> success` (nes.h, not
under src) — validates the fixed 4-byte magic, rejects truncated images and
mapper ids with no known variant (`known_mapper` abstracts the set of
supported mapper variants); on any validation failure the Machine,
including any previously inserted cartridge, is left untouched; on success
the cartridge is replaced wholesale by the newly parsed one. -/
def nes_insert_cart (known_mapper : Nat → Bool) (m : nes_t) (data : List Nat) :
    Bool × nes_t :=
  if data.take 4 ≠ NES_MAGIC then (false, m)
  else if data.length < 16 then (false, m)
  else if ¬ known_mapper (ines_mapper_id data) then (false, m)
  else
    let h := parse_cart_header data
    let prg_start := if h.trainer then 16 + 512 else 16
    (true, { m with cart := some {
        header := h
        prg := (data.drop prg_start).take (h.prg_page_count * 16384)
        chr := ((data.drop prg_start).drop (h.prg_page_count * 16384)).take
                  (h.tile_page_count * 8192)
        bank_select := fun _ => 0
        ram := fun _ => 0 } })

/-- Modelled from the spec: a play-time mutation of the cartridge — "only
bank-select registers and RAM contents change during play"; the parsed
header is immutable. -/
def cart_play_step (c : cart_t) (banks mem : Nat → Nat) : cart_t :=
  { c with bank_select := banks, ram := mem }

/-- Modelled from the spec: `nes_key_down(code)` (nes.h, not under src) —
sets the pad bit for the given key code in the controller latch. -/
def nes_key_down (m : nes_t) (c : Nat) : nes_t :=
  { m with pad := m.pad ||| (1 <<< (c - 1)) }

/-- Modelled from the spec: `nes_key_up(code)` (nes.h, not under src) —
clears the pad bit for the given key code in the controller latch. -/
def nes_key_up (m : nes_t) (c : Nat) : nes_t :=
  { m with pad := m.pad &&& (0xFF ^^^ (1 <<< (c - 1))) }

-- ---------------------------------------------------------------------------
-- Definitions translated from the sources (src/src/nes.c, including the
-- embedded ui_nes.h).
-- ---------------------------------------------------------------------------

-- ui_nes.h `_ui_nes_ppu_mem_read`: delegates to `nes_ppu_read` (the layer
-- argument is ignored by the C function).
def _ui_nes_ppu_mem_read (p : r2c02_t) (addr : Nat) : Nat := nes_ppu_read p addr

-- ui_nes.h `_ui_nes_tile_address`.
def _ui_nes_tile_address (table_nr : Nat) : Nat := 0x2000 + 0x400 * table_nr

-- ui_nes.h `_ui_nes_att_address`.
def _ui_nes_att_address (x y : Nat) (table_nr : Nat) : Nat :=
  0x23c0 + table_nr * 0x400 + (y / 4) * 8 + (x / 4)

-- ui_nes.h `_ui_nes_attributes`.
def _ui_nes_attributes (p : r2c02_t) (tile_x tile_y : Nat) (table_nr : Nat) : Nat :=
  _ui_nes_ppu_mem_read p (_ui_nes_att_address tile_x tile_y table_nr)

-- ui_nes.h `_ui_nes_pal_index`: shift amount
-- `((tile_x % 2) + ((tile_y % 2) << 1)) << 1` applied to the attribute byte.
def _ui_nes_pal_index (p : r2c02_t) (tile_x tile_y : Nat) (table_nr : Nat) : Nat :=
  let att := _ui_nes_attributes p tile_x tile_y table_nr
  let oam_shift := ((tile_x % 2) + ((tile_y % 2) <<< 1)) <<< 1
  (att >>> oam_shift) &&& 3

-- ui_nes.h `_ui_nes_decode_name_table`, palette-selector computation for
-- the tile at (tile_x, tile_y): at that point of the loop
-- `addr = _ui_nes_tile_address(table_nr) + tile_y*32 + tile_x` with
-- `table_nr = (y << 1) + x`, and the inline shift amount is
-- `((addr >> 4) & 4) | (addr & 2)`.
def _ui_nes_decode_name_table_pal_index (p : r2c02_t) (x y tile_x tile_y : Nat) : Nat :=
  let table_nr := (y <<< 1) + x
  let addr := _ui_nes_tile_address table_nr + tile_y * 32 + tile_x
  let att := _ui_nes_attributes p tile_x tile_y table_nr
  let att_shift := ((addr >>> 4) &&& 4) ||| (addr &&& 2)
  (att >>> att_shift) &&& 3

-- ui_nes.h `_ui_nes_update_sprites`, pattern-table number used to decode
-- the 64 OAM sprites: `(_ui_nes_ppu_mem_read(0, 0x2000, ui) >> 3) & 1`.
def _ui_nes_update_sprites_table_nr (p : r2c02_t) : Nat :=
  (_ui_nes_ppu_mem_read p 0x2000 >>> 3) &&& 1

-- ui_nes.h `_ui_nes_sprite_mem_read` ("Sprite" memory layer; `addr` is a
-- uint16_t, so the C guard `addr >= 0` is always true).
def _ui_nes_sprite_mem_read (m : nes_t) (addr : Nat) : Nat :=
  if addr < 64 * 4 then m.ppu.oam addr else 0xFF

-- ui_nes.h `_ui_nes_sprite_mem_write`.
def _ui_nes_sprite_mem_write (m : nes_t) (addr data : Nat) : nes_t :=
  if addr < 64 * 4 then
    { m with ppu := { m.ppu with oam := fun i => if i = addr then data else m.ppu.oam i } }
  else m

-- ui_nes.h `_ui_nes_oam_mem_read` ("OAM" memory layer).
def _ui_nes_oam_mem_read (m : nes_t) (addr : Nat) : Nat :=
  if addr < 64 * 4 then m.ppu.oam addr else 0xFF

-- ui_nes.h `_ui_nes_oam_mem_write`.
def _ui_nes_oam_mem_write (m : nes_t) (addr data : Nat) : nes_t :=
  if addr < 64 * 4 then
    { m with ppu := { m.ppu with oam := fun i => if i = addr then data else m.ppu.oam i } }
  else m

-- ui_nes.h `_ui_nes_draw_cartridge`, displayed mapper id:
-- `header.mapper_low | (header.mapper_hi << 4)`.
def _ui_nes_draw_cartridge_mapper (h : cart_header_t) : Nat :=
  h.mapper_low ||| (h.mapper_hi <<< 4)

-- nes.c `app_input`: keycodes of interest.  The eight mapped host keys are
-- named; every other keycode is carried as `other`.
inductive sapp_keycode where
  | key_left | key_right | key_down | key_up | key_enter | key_f | key_d | key_s
  | other (code : Nat)
deriving DecidableEq

-- nes.c `app_input`: event types of interest.
inductive sapp_event_type where
  | key_down | key_up | files_dropped | other_event
deriving DecidableEq

-- nes.c `app_input`: the incoming host event.
structure sapp_event where
  type : sapp_event_type
  key_code : sapp_keycode
deriving DecidableEq

-- nes.c `app_input`, the keycode switch: Left/Right/Down/Up/Enter/F/D/S map
-- to 0x01..0x08, every other keycode to 0x00.
def app_input_keymap : sapp_keycode → Nat
  | .key_left => 0x01
  | .key_right => 0x02
  | .key_down => 0x03
  | .key_up => 0x04
  | .key_enter => 0x05
  | .key_f => 0x06
  | .key_d => 0x07
  | .key_s => 0x08
  | .other _ => 0x00

-- The calls `app_input` makes into the machine (its observable effect on
-- the emulator core).
inductive nes_call where
  | key_down (c : Nat)
  | key_up (c : Nat)
deriving DecidableEq

-- nes.c `app_input` as a call trace: when the UI has consumed the event
-- (`ui_input` returned true) nothing reaches the core; otherwise key-down /
-- key-up events with a non-zero mapped code call `nes_key_down` /
-- `nes_key_up` with that code, and every other event calls neither.
def app_input (ui_handled : Bool) (e : sapp_event) : List nes_call :=
  if ui_handled then []
  else
    match e.type with
    | .key_down =>
      let c := app_input_keymap e.key_code
      if c ≠ 0 then [nes_call.key_down c] else []
    | .key_up =>
      let c := app_input_keymap e.key_code
      if c ≠ 0 then [nes_call.key_up c] else []
    | _ => []

-- Applying a trace of core calls to the machine.
def apply_nes_calls (cs : List nes_call) (m : nes_t) : nes_t :=
  cs.foldl (fun acc c =>
    match c with
    | .key_down k => nes_key_down acc k
    | .key_up k => nes_key_up acc k) m

-- ---------------------------------------------------------------------------
-- Concrete states used by witnesses and counterexamples.
-- ---------------------------------------------------------------------------

/-- A concrete picture-generator state: all registers and memories zero. -/
def sample_ppu : r2c02_t :=
  { ppu_control := 0, ppu_mask := 0, ppu_status := 0,
    oam := fun _ => 0, vram := fun _ => 0, pattern := fun _ => 0, palette := fun _ => 0,
    scanline := 0, cycle := 0, vblank := false, nmi_count := 0 }

/-- A concrete machine state: zeroed picture generator, no cartridge. -/
def sample_nes : nes_t :=
  { cpu_ticks := 0, ppu_ticks := 0, ppu := sample_ppu, cart := none, pad := 0 }

/-- Picture-generator state whose nametable RAM holds 0x04 everywhere; at
tile (1,0) of table 0 the two palette-selector computations of ui_nes.h
disagree on it. -/
def c6_ppu : r2c02_t := { sample_ppu with vram := fun _ => 4 }

/-- Picture-generator state with the sprite pattern-table select bit of the
control register set (control = 0x08) while all nametable RAM reads 0. -/
def c7_ppu : r2c02_t := { sample_ppu with ppu_control := 8 }

-- ---------------------------------------------------------------------------
-- Supporting lemmas.
-- ---------------------------------------------------------------------------

/-- Combining two nibbles with bitwise-or and a 4-bit shift is the same as
the arithmetic combination `lo + 16 * hi`. -/
theorem nibble_lor_shift_eq_add : ∀ lo < 16, ∀ hi < 16, lo ||| (hi <<< 4) = lo + 16 * hi := by
  decide

/-- The high nibble extracted by `parse_cart_header` is below 16. -/
theorem high_nibble_lt_16 (b : Nat) : (b % 256) >>> 4 < 16 := by
  rw [Nat.shiftRight_eq_div_pow]
  omega

-- ---------------------------------------------------------------------------
-- Claim theorems.
-- ---------------------------------------------------------------------------

/-- C1: saving a snapshot and immediately loading it back with the returned
version succeeds and restores a machine state identical to the save point,
and continued execution (`nes_exec`) from the restored state returns
exactly the same machine and tick count as uninterrupted execution from the
save point. -/
theorem snapshot_roundtrip_deterministic (m : nes_t) (t : Nat) :
    nes_load_snapshot m (nes_save_snapshot m).1 (nes_save_snapshot m).2 = (true, m)
    ∧ nes_exec (nes_load_snapshot m (nes_save_snapshot m).1 (nes_save_snapshot m).2).2 t
        = nes_exec m t := by
  constructor
  · simp [nes_save_snapshot, nes_load_snapshot]
  · simp [nes_save_snapshot, nes_load_snapshot]

/-- C2: `nes_insert_cart` fails on a buffer whose first 4 bytes do not
match the cartridge magic, and on a mapper id with no known variant, and in
either case returns the machine — including any previously inserted
cartridge — exactly as it was. -/
theorem insert_cart_failure_atomic (known : Nat → Bool) (m : nes_t) (data : List Nat)
    (h : data.take 4 ≠ NES_MAGIC ∨ known (ines_mapper_id data) = false) :
    nes_insert_cart known m data = (false, m) := by
  unfold nes_insert_cart
  rcases h with h | h
  · rw [if_pos h]
  · split_ifs with h1 h2 h3 <;> simp_all

/-- C2 witness: inserting a 4-byte buffer of zeros (wrong magic) into the
sample machine fails and leaves it unchanged. -/
theorem insert_cart_failure_atomic_witness :
    nes_insert_cart (fun _ => true) sample_nes [0, 0, 0, 0] = (false, sample_nes) :=
  insert_cart_failure_atomic (fun _ => true) sample_nes [0, 0, 0, 0] (Or.inl (by decide))

/-- C3: `nes_load_snapshot` succeeds exactly when the version tag equals
the running build's snapshot-layout version, and whenever it fails the live
machine is returned completely unmodified. -/
theorem load_snapshot_version_gate (m : nes_t) (v : Nat) (src : nes_t) :
    ((nes_load_snapshot m v src).1 = true ↔ v = NES_SNAPSHOT_VERSION)
    ∧ ((nes_load_snapshot m v src).1 = false → nes_load_snapshot m v src = (false, m)) := by
  unfold nes_load_snapshot
  by_cases h : v = NES_SNAPSHOT_VERSION
  · simp [h]
  · simp [h]

/-- C3 witness: loading a snapshot tagged with version 7 (not the current
layout version) into the sample machine fails and leaves it unmodified. -/
theorem load_snapshot_version_gate_witness :
    nes_load_snapshot sample_nes 7 sample_nes = (false, sample_nes) :=
  (load_snapshot_version_gate sample_nes 7 sample_nes).2 (by decide)

/-- C6 (code bug): the two palette-selector computations of ui_nes.h
disagree.  At tile (1,0) of nametable 0 with every attribute byte equal to
0x04, `_ui_nes_pal_index` (shift `((tile_x % 2) + ((tile_y % 2) << 1)) << 1`,
here 2) yields 1, while the inline computation of
`_ui_nes_decode_name_table` (shift `((addr >> 4) & 4) | (addr & 2)` with
addr = 0x2001, here 0) yields 0 — the former keys on the tile parity bits,
the latter on the 4x4-tile quadrant bits, so the claimed equality fails. -/
theorem pal_index_disagrees_with_name_table_decoder :
    _ui_nes_pal_index c6_ppu 1 0 0 = 1
    ∧ _ui_nes_decode_name_table_pal_index c6_ppu 0 0 1 0 = 0
    ∧ _ui_nes_pal_index c6_ppu 1 0 0 ≠ _ui_nes_decode_name_table_pal_index c6_ppu 0 0 1 0 := by
  decide

/-- C7 (code bug): the sprite viewer's pattern-table number is the byte
fetched from picture-generator VRAM address 0x2000 (the first nametable
byte), not the sprite pattern-table select bit of the control register: on
a machine whose control register has that bit set (0x08) while nametable
RAM reads 0, the viewer uses table 0 although the control bit selects
table 1. -/
theorem sprite_viewer_table_nr_ignores_control :
    _ui_nes_update_sprites_table_nr c7_ppu = 0
    ∧ r2c02_control_sprite_table c7_ppu.ppu_control = 1
    ∧ _ui_nes_update_sprites_table_nr c7_ppu ≠ r2c02_control_sprite_table c7_ppu.ppu_control := by
  decide

/-- C8: the mapper id shown by the cartridge inspection window equals the
header's low nibble combined with the high nibble shifted left by 4 — both
as the bitwise expression of `_ui_nes_draw_cartridge` and as the arithmetic
combination `low + 16 * high` — it coincides with the mapper id computed
from the image bytes at insertion time, and a play-time cartridge mutation
(bank-select registers and RAM only) never changes the parsed header. -/
theorem cartridge_mapper_id_display (data : List Nat) (c : cart_t) (banks mem : Nat → Nat) :
    _ui_nes_draw_cartridge_mapper (parse_cart_header data)
        = (parse_cart_header data).mapper_low + 16 * (parse_cart_header data).mapper_hi
    ∧ (parse_cart_header data).mapper_low < 16
    ∧ (parse_cart_header data).mapper_hi < 16
    ∧ _ui_nes_draw_cartridge_mapper (parse_cart_header data) = ines_mapper_id data
    ∧ (cart_play_step c banks mem).header = c.header := by
  refine ⟨?_, ?_, ?_, rfl, rfl⟩
  · exact nibble_lor_shift_eq_add _ (high_nibble_lt_16 _) _ (high_nibble_lt_16 _)
  · exact high_nibble_lt_16 _
  · exact high_nibble_lt_16 _

/-- C9: the debug UI's "Sprite" and "OAM" memory layers behave identically;
a read returns the OAM byte at `addr` when `addr < 256` and the sentinel
0xFF otherwise, and a write with `addr ≥ 256` leaves the machine — in
particular object-attribute memory — entirely unchanged. -/
theorem oam_layer_bounds (m : nes_t) (addr data : Nat) :
    _ui_nes_sprite_mem_read m addr = _ui_nes_oam_mem_read m addr
    ∧ _ui_nes_oam_mem_read m addr = (if addr < 256 then m.ppu.oam addr else 0xFF)
    ∧ (256 ≤ addr →
        _ui_nes_oam_mem_write m addr data = m ∧ _ui_nes_sprite_mem_write m addr data = m) := by
  refine ⟨rfl, rfl, fun h => ⟨?_, ?_⟩⟩
  · unfold _ui_nes_oam_mem_write
    rw [if_neg (by omega)]
  · unfold _ui_nes_sprite_mem_write
    rw [if_neg (by omega)]

/-- C9 witness: writing 0x55 at address 300 through the OAM layer of the
sample machine leaves it unchanged. -/
theorem oam_layer_bounds_witness :
    _ui_nes_oam_mem_write sample_nes 300 0x55 = sample_nes :=
  ((oam_layer_bounds sample_nes 300 0x55).2.2 (by omega)).1

/-- C10: a keyboard event whose keycode is not one of the eight mapped keys
produces no call into the core (so applying its trace leaves the machine,
in particular the controller state, unchanged), and for every mapped
keycode the key-down and key-up events deliver the same code, one of
0x01..0x08, to `nes_key_down` and `nes_key_up` respectively. -/
theorem app_input_key_mapping (ui_handled : Bool) (k : sapp_keycode)
    (t : sapp_event_type) (m : nes_t) :
    (app_input_keymap k = 0 →
      app_input ui_handled { type := t, key_code := k } = []
      ∧ apply_nes_calls (app_input ui_handled { type := t, key_code := k }) m = m)
    ∧ (app_input_keymap k ≠ 0 →
      app_input false { type := .key_down, key_code := k }
          = [nes_call.key_down (app_input_keymap k)]
      ∧ app_input false { type := .key_up, key_code := k }
          = [nes_call.key_up (app_input_keymap k)]
      ∧ 1 ≤ app_input_keymap k ∧ app_input_keymap k ≤ 8) := by
  constructor
  · intro h0
    have he : app_input ui_handled { type := t, key_code := k } = [] := by
      unfold app_input
      cases ui_handled
      · cases t <;> simp [h0]
      · rfl
    exact ⟨he, by rw [he]; rfl⟩
  · intro h0
    refine ⟨by simp [app_input, h0], by simp [app_input, h0], ?_, ?_⟩
    · cases k <;> simp_all [app_input_keymap]
    · cases k <;> simp_all [app_input_keymap]

/-- C10 witness: the unmapped key A produces no core call and leaves the
sample machine unchanged, while the mapped Left key delivers code 0x01 on
key-down. -/
theorem app_input_key_mapping_witness :
    (app_input false { type := .key_down, key_code := .other 65 } = []
      ∧ apply_nes_calls (app_input false { type := .key_down, key_code := .other 65 })
          sample_nes = sample_nes)
    ∧ app_input false { type := .key_down, key_code := .key_left }
        = [nes_call.key_down (app_input_keymap .key_left)] :=
  ⟨(app_input_key_mapping false (.other 65) .key_down sample_nes).1 rfl,
   ((app_input_key_mapping false .key_left .key_down sample_nes).2 (by decide)).1⟩

/-- Invariants of the `nes_exec` stepping loop: the tick counter only
grows; each executed tick advances the processor counter by one and the
picture-generator counter by three; with fuel at least `bound` the loop
does not stop before the time budget is met; and the loop never executes a
tick that was already past the budget. -/
theorem nes_exec_loop_spec (fuel bound : Nat) : ∀ (m : nes_t) (ticks : Nat),
    ticks ≤ (nes_exec_loop fuel m bound ticks).2
    ∧ (nes_exec_loop fuel m bound ticks).1.cpu_ticks
        = m.cpu_ticks + ((nes_exec_loop fuel m bound ticks).2 - ticks)
    ∧ (nes_exec_loop fuel m bound ticks).1.ppu_ticks
        = m.ppu_ticks + 3 * ((nes_exec_loop fuel m bound ticks).2 - ticks)
    ∧ (bound ≤ ticks + fuel → bound ≤ (nes_exec_loop fuel m bound ticks).2 * 1000000)
    ∧ (ticks < (nes_exec_loop fuel m bound ticks).2 →
        ((nes_exec_loop fuel m bound ticks).2 - 1) * 1000000 < bound) := by
  induction fuel with
  | zero =>
    intro m ticks
    simp only [nes_exec_loop]
    exact ⟨Nat.le_refl _, by omega, by omega, by omega, by omega⟩
  | succ fuel ih =>
    intro m ticks
    simp only [nes_exec_loop]
    by_cases h : ticks * 1000000 < bound
    · rw [if_pos h]
      obtain ⟨ih1, ih2, ih3, ih4, ih5⟩ := ih (nes_tick m) (ticks + 1)
      have hc : (nes_tick m).cpu_ticks = m.cpu_ticks + 1 := rfl
      have hp : (nes_tick m).ppu_ticks = m.ppu_ticks + 3 := rfl
      refine ⟨by omega, by omega, by omega, fun hb => ih4 (by omega), ?_⟩
      intro _
      by_cases h2 : ticks + 1 < (nes_exec_loop fuel (nes_tick m) bound (ticks + 1)).2
      · exact ih5 h2
      · have he : (nes_exec_loop fuel (nes_tick m) bound (ticks + 1)).2 = ticks + 1 := by omega
        rw [he]
        simpa using h
    · rw [if_neg h]
      refine ⟨Nat.le_refl _, ?_, ?_, ?_, ?_⟩ <;> simp <;> omega

/-- C4: for every machine state and microsecond budget, `nes_exec` advances
the processor by exactly the returned number of ticks and the picture
generator by exactly three cycles per tick; the emulated time accumulated
from `NES_CPU_FREQUENCY` meets or exceeds the budget (`ticks / frequency ≥
budget / 10^6`, cross-multiplied), and it only just does: the budget was
still unmet one tick earlier, so the budget is never undershot and never
overshot by more than one tick. -/
theorem nes_exec_budget (m : nes_t) (t : Nat) :
    (nes_exec m t).1.cpu_ticks = m.cpu_ticks + (nes_exec m t).2
    ∧ (nes_exec m t).1.ppu_ticks = m.ppu_ticks + 3 * (nes_exec m t).2
    ∧ t * NES_CPU_FREQUENCY ≤ (nes_exec m t).2 * 1000000
    ∧ (0 < (nes_exec m t).2 →
        ((nes_exec m t).2 - 1) * 1000000 < t * NES_CPU_FREQUENCY) := by
  obtain ⟨h1, h2, h3, h4, h5⟩ :=
    nes_exec_loop_spec (t * NES_CPU_FREQUENCY) (t * NES_CPU_FREQUENCY) m 0
  unfold nes_exec
  exact ⟨by omega, by omega, h4 (by omega), h5⟩

/-- C4 witness: executing the sample machine for a 1-microsecond budget
runs a positive number of ticks, and one tick less would not have met the
budget. -/
theorem nes_exec_budget_witness :
    ((nes_exec sample_nes 1).2 - 1) * 1000000 < 1 * NES_CPU_FREQUENCY :=
  (nes_exec_budget sample_nes 1).2.2.2 (by decide)

/-- Closed form of a full frame of the picture generator, starting at
scanline 0 / cycle 0: after `n` of the 89342 cycles of the 341 x 262 grid
the position is scanline `n / 341`, cycle `n % 341`; the vertical-blank
flag is set exactly on the steps from 241*341+1 = 82182 (scanline 241,
cycle 1) up to but excluding 261*341+1 = 89002 (scanline 261, cycle 1);
and the NMI assertion count is 1 from step 82182 on when the NMI-enable
control bit is set, 0 otherwise. -/
theorem ppu_frame_closed (p : r2c02_t) :
    ∀ n, n ≤ 89341 →
      (ppu_tick^[n] (ppu_frame_start p)).scanline = n / 341
      ∧ (ppu_tick^[n] (ppu_frame_start p)).cycle = n % 341
      ∧ (ppu_tick^[n] (ppu_frame_start p)).vblank = decide (82182 ≤ n ∧ n < 89002)
      ∧ (ppu_tick^[n] (ppu_frame_start p)).nmi_count
          = (if r2c02_nmi_enable p.ppu_control ∧ 82182 ≤ n then 1 else 0)
      ∧ (ppu_tick^[n] (ppu_frame_start p)).ppu_control = p.ppu_control := by
  intro n
  induction n with
  | zero =>
    intro _
    refine ⟨rfl, rfl, by simp [ppu_frame_start], by simp [ppu_frame_start], rfl⟩
  | succ n ih =>
    intro hn1
    obtain ⟨h1, h2, h3, h4, h5⟩ := ih (by omega)
    rw [Function.iterate_succ_apply']
    set s := ppu_tick^[n] (ppu_frame_start p) with hs
    have hcy : (if s.cycle + 1 > 340 then 0 else s.cycle + 1) = (n + 1) % 341 := by
      rw [h2]; split_ifs <;> omega
    have hsl : (if s.cycle + 1 > 340 then (if s.scanline + 1 > 261 then 0 else s.scanline + 1)
          else s.scanline) = (n + 1) / 341 := by
      rw [h1, h2]; split_ifs <;> omega
    simp only [ppu_tick, hcy, hsl]
    by_cases hA : n + 1 = 82182
    · -- vblank-set branch
      rw [if_pos (by omega : (n + 1) / 341 = 241 ∧ (n + 1) % 341 = 1)]
      refine ⟨rfl, rfl, (decide_eq_true (by omega : 82182 ≤ n + 1 ∧ n + 1 < 89002)).symm, ?_, h5⟩
      show s.nmi_count + (if r2c02_nmi_enable s.ppu_control then 1 else 0)
          = if r2c02_nmi_enable p.ppu_control = true ∧ 82182 ≤ n + 1 then 1 else 0
      rw [h5, h4]
      have hn' : ¬ (82182 ≤ n) := by omega
      have h82 : 82182 ≤ n + 1 := by omega
      cases hE : r2c02_nmi_enable p.ppu_control
      · simp [hE]
      · simp [hE, hn', h82]
    · by_cases hB : n + 1 = 89002
      · -- vblank-clear branch
        rw [if_neg (by omega : ¬((n + 1) / 341 = 241 ∧ (n + 1) % 341 = 1)),
            if_pos (by omega : (n + 1) / 341 = 261 ∧ (n + 1) % 341 = 1)]
        refine ⟨rfl, rfl, (decide_eq_false (by omega : ¬(82182 ≤ n + 1 ∧ n + 1 < 89002))).symm,
          ?_, h5⟩
        show s.nmi_count = if r2c02_nmi_enable p.ppu_control = true ∧ 82182 ≤ n + 1 then 1 else 0
        rw [h4]
        have h82n : 82182 ≤ n := by omega
        have h82n1 : 82182 ≤ n + 1 := by omega
        cases hE : r2c02_nmi_enable p.ppu_control <;> simp [hE, h82n, h82n1]
      · -- no flag change
        rw [if_neg (by omega : ¬((n + 1) / 341 = 241 ∧ (n + 1) % 341 = 1)),
            if_neg (by omega : ¬((n + 1) / 341 = 261 ∧ (n + 1) % 341 = 1))]
        refine ⟨rfl, rfl, ?_, ?_, h5⟩
        · show s.vblank = decide (82182 ≤ n + 1 ∧ n + 1 < 89002)
          rw [h3, decide_eq_decide]
          omega
        · show s.nmi_count = if r2c02_nmi_enable p.ppu_control = true ∧ 82182 ≤ n + 1 then 1 else 0
          rw [h4]
          have hiff : (82182 ≤ n) ↔ (82182 ≤ n + 1) := by omega
          exact if_congr (and_congr Iff.rfl hiff) rfl rfl

/-- C5: within one frame started at scanline 0 / cycle 0, the
vertical-blank flag makes a 0-to-1 transition at step `n + 1` exactly when
that step lands on scanline 241 / cycle 1, which happens at exactly one
step of the frame (step 241*341+1); and the number of NMI assertions is 1
from that moment to the end of the frame when the NMI-enable control bit
is set — the line is asserted exactly once per transition and never
re-fired — and 0 when the bit is clear. -/
theorem vblank_once_per_frame (p : r2c02_t) (n : Nat) (h : n + 1 ≤ 89341) :
    (((ppu_tick^[n] (ppu_frame_start p)).vblank = false
        ∧ (ppu_tick^[n + 1] (ppu_frame_start p)).vblank = true)
      ↔ ((ppu_tick^[n + 1] (ppu_frame_start p)).scanline = 241
          ∧ (ppu_tick^[n + 1] (ppu_frame_start p)).cycle = 1
          ∧ n + 1 = 241 * 341 + 1))
    ∧ (ppu_tick^[n + 1] (ppu_frame_start p)).nmi_count
        = (if r2c02_nmi_enable p.ppu_control ∧ 241 * 341 + 1 ≤ n + 1 then 1 else 0) := by
  obtain ⟨g1, g2, g3, g4, g5⟩ := ppu_frame_closed p (n + 1) h
  obtain ⟨f1, f2, f3, f4, f5⟩ := ppu_frame_closed p n (by omega)
  constructor
  · rw [f3, g3, g1, g2]
    simp only [decide_eq_false_iff_not, decide_eq_true_eq]
    omega
  · rw [g4]

/-- C5 witness: at the first step of a frame of the sample picture
generator there is no vertical-blank transition and no NMI assertion. -/
theorem vblank_once_per_frame_witness :
    (((ppu_tick^[0] (ppu_frame_start sample_ppu)).vblank = false
        ∧ (ppu_tick^[0 + 1] (ppu_frame_start sample_ppu)).vblank = true)
      ↔ ((ppu_tick^[0 + 1] (ppu_frame_start sample_ppu)).scanline = 241
          ∧ (ppu_tick^[0 + 1] (ppu_frame_start sample_ppu)).cycle = 1
          ∧ 0 + 1 = 241 * 341 + 1))
    ∧ (ppu_tick^[0 + 1] (ppu_frame_start sample_ppu)).nmi_count
        = (if r2c02_nmi_enable sample_ppu.ppu_control ∧ 241 * 341 + 1 ≤ 0 + 1 then 1 else 0) :=
  vblank_once_per_frame sample_ppu 0 (by omega)
